import Mathlib

/-!
Shallow embedding of the SymptoGuide core pipeline
(`backend/model/Feature_Engineering.py`, `backend/model/Healthcare_Assistant_System.py`,
`backend/model/Interract.py`).

Conventions of the embedding:
* Python strings are modelled at the codepoint level as `List Nat` where the
  normalisation routine manipulates individual characters
  (`HealthcareAssistant._normalize_symptom`), and as Lean `String` where the code
  treats them as tokens.  `str2c` converts a Lean string literal to its
  codepoint list.
* Python floats are modelled as `ℚ` (exact arithmetic); `np.log` is modelled as
  `Real.log` on the rational argument cast to `ℝ`.
* Python `dict.get(k, default)` maps are modelled as total functions that
  already incorporate the default.
* Python sets are modelled either as `Finset String` (where only membership and
  cardinality matter) or as duplicate-free lists in iteration order (where the
  code iterates over them).
-/

/-! ### Character-level helpers (ASCII semantics of `str.lower`, `str.strip`, `str.isalnum`) -/

/-- Embedding of `str.lower` on one codepoint (ASCII range, which is all the code relies on):
uppercase letters `A`–`Z` (65–90) map to `a`–`z` (97–122). -/
def pyLowerChar (c : Nat) : Nat := if 65 ≤ c ∧ c ≤ 90 then c + 32 else c

/-- Python whitespace characters recognised by `str.strip()` / `str.split()`
(space, tab, newline, vertical tab, form feed, carriage return). -/
def isPySpace (c : Nat) : Bool := c = 32 || c = 9 || c = 10 || c = 11 || c = 12 || c = 13

/-- Embedding of `str.isalnum` on one codepoint (ASCII): digits `0`–`9`, letters `A`–`Z`, `a`–`z`. -/
def isPyAlnum (c : Nat) : Bool :=
  (48 ≤ c && c ≤ 57) || (65 ≤ c && c ≤ 90) || (97 ≤ c && c ≤ 122)

/-- Embedding of `str.strip()` : drop leading and trailing whitespace. -/
def pyStrip (l : List Nat) : List Nat :=
  ((l.dropWhile (fun c => isPySpace c)).reverse.dropWhile (fun c => isPySpace c)).reverse

/-- Encode a Lean string literal as its codepoint list (for stating concrete facts). -/
def str2c (s : String) : List Nat := s.data.map Char.toNat

/-! ### `HealthcareAssistant._normalize_symptom`

```python
def _normalize_symptom(self, symptom):
    if pd.isna(symptom) or symptom == '':
        return None
    symptom = str(symptom).lower().strip()
    symptom = symptom.replace(' ', '_').replace('-', '_')
    symptom = ''.join(c for c in symptom if c.isalnum() or c == '_')
    return symptom if symptom else None
```
`' '` is codepoint 32, `'-'` is 45, `'_'` is 95.  A single-character
`str.replace` is a character-wise map. -/

def normalize_symptom (symptom : List Nat) : Option (List Nat) :=
  if symptom = [] then none
  else
    let s1 := pyStrip (symptom.map pyLowerChar)
    let s2 := s1.map (fun c => if c = 32 then 95 else c)
    let s3 := s2.map (fun c => if c = 45 then 95 else c)
    let s4 := s3.filter (fun c => isPyAlnum c || c = 95)
    if s4 = [] then none else some s4

/-! ### `HealthcareAssistant.is_emergency` -/

/-- The fixed emergency keyword list of `is_emergency`. -/
def emergency_symptoms : List (List Nat) :=
  ([
    "chest_pain", "difficulty_breathing", "severe_headache",
    "sudden_numbness", "confusion", "severe_bleeding",
    "unconsciousness", "heart_attack", "stroke", "seizure",
    "high_fever", "severe_abdominal_pain", "blurred_vision",
    "slurred_speech", "weakness", "paralysis", "shortness_of_breath",
    "fainting", "severe_chest_pain", "coughing_blood"
  ] : List String).map str2c

/-- Python source:
```python
user_symptoms_clean = [self._normalize_symptom(s) for s in symptoms]
has_emergency = any(es in user_symptoms_clean for es in emergency_symptoms)
high_severity = severity_score > 20
return has_emergency or high_severity
``` -/
def is_emergency (symptoms : List (List Nat)) (severity_score : ℚ) : Bool :=
  let user_symptoms_clean := symptoms.map normalize_symptom
  let has_emergency := emergency_symptoms.any (fun es => user_symptoms_clean.contains (some es))
  let high_severity := severity_score > 20
  has_emergency || high_severity

/-! ### `HealthcareAssistant.get_specialist_recommendation` -/

/-- Substring test: `needle in hay` for Python strings (here on codepoint lists). -/
def listInfix (needle hay : List Nat) : Bool :=
  needle.isPrefixOf hay ||
    match hay with
    | [] => needle = []
    | _ :: rest => listInfix needle rest

/-- Embedding of `needle in hay` for Lean `String`s, via the codepoint encoding. -/
def strContains (hay needle : String) : Bool := listInfix (str2c needle) (str2c hay)

/-- Embedding of `str.lower` on a whole string. -/
def pyLowerStr (s : String) : String :=
  ⟨s.data.map Char.toLower⟩

def specialist_map : List (String × String) := [
  ("fungal", "Dermatologist"), ("allergy", "Allergist"),
  ("gerd", "Gastroenterologist"), ("diabetes", "Endocrinologist"),
  ("migraine", "Neurologist"), ("arthritis", "Rheumatologist"),
  ("hypertension", "Cardiologist"), ("pneumonia", "Pulmonologist"),
  ("hepatitis", "Hepatologist"), ("jaundice", "Hepatologist"),
  ("malaria", "Infectious Disease Specialist"),
  ("dengue", "Infectious Disease Specialist"),
  ("typhoid", "Infectious Disease Specialist"),
  ("tuberculosis", "Pulmonologist"), ("asthma", "Pulmonologist"),
  ("heart", "Cardiologist"), ("kidney", "Nephrologist"),
  ("liver", "Hepatologist"), ("stomach", "Gastroenterologist"),
  ("skin", "Dermatologist"), ("brain", "Neurologist"),
  ("bone", "Orthopedist"), ("blood", "Hematologist"),
  ("mental", "Psychiatrist"), ("eye", "Ophthalmologist"),
  ("ear", "ENT Specialist"), ("cold", "General Physician"),
  ("flu", "General Physician"), ("anxiety", "Psychiatrist"),
  ("depression", "Psychiatrist"), ("panic", "Psychiatrist")
]

/-- Python source:
```python
disease_lower = disease.lower()
for keyword, specialist in specialist_map.items():
    if keyword in disease_lower:
        return specialist
return 'General Physician'
``` -/
def get_specialist_recommendation (disease : String) : String :=
  let disease_lower := pyLowerStr disease
  match specialist_map.find? (fun kv => strContains disease_lower kv.1) with
  | some kv => kv.2
  | none => "General Physician"

/-! ### `SymptomFeatureEngineer` (`Feature_Engineering.py`) -/

/-- The per-symptom weight record stored in `self.symptom_weights`. -/
structure SymptomWeights where
  base_severity : ℚ
  idf : ℚ
  discriminative : ℚ
  rarity : ℚ

/-- Fitted state of `SymptomFeatureEngineer`: the `symptom_weights` dict
(`None` when the symptom is absent) and the `symptom_cooccurrence` nested dict
(with its `get(s2, 0)` / missing-key defaults already folded in). -/
structure SymptomFeatureEngineer where
  symptom_weights : String → Option SymptomWeights
  symptom_cooccurrence : String → String → ℕ

/-- Python source:
```python
if symptom not in self.symptom_weights:
    return 1.0
weights = self.symptom_weights[symptom]
combined = (weights['base_severity'] * 0.3 + weights['idf'] * 0.3 +
            weights['discriminative'] * 0.25 + weights['rarity'] * 10 * 0.15)
``` -/
def get_combined_weight (e : SymptomFeatureEngineer) (symptom : String) : ℚ :=
  match e.symptom_weights symptom with
  | none => 1
  | some w =>
      w.base_severity * (3 / 10) + w.idf * (3 / 10) +
        w.discriminative * (25 / 100) + w.rarity * 10 * (15 / 100)

/-- Embedding of `get_cooccurrence_score` with the dictionary defaults folded into the state. -/
def get_cooccurrence_score (e : SymptomFeatureEngineer) (s1 s2 : String) : ℕ :=
  e.symptom_cooccurrence s1 s2

/-- The doubly-nested co-occurrence accumulation
`for i, s1 in enumerate(symptom_list): for s2 in symptom_list[i+1:]: cooc_score += ...`. -/
def coocSum (e : SymptomFeatureEngineer) : List String → ℚ
  | [] => 0
  | s1 :: rest => (rest.map (fun s2 => (get_cooccurrence_score e s1 s2 : ℚ))).sum + coocSum e rest

/-- Embedding of `SymptomFeatureEngineer.create_enhanced_features(symptoms, all_symptoms_list)`.
The Python `symptoms` set is modelled as a duplicate-free list in iteration
order; `s in symptoms` is list membership. -/
def create_enhanced_features (e : SymptomFeatureEngineer)
    (symptoms : List String) (all_symptoms_list : List String) : List ℚ :=
  let presence := all_symptoms_list.map (fun symptom =>
    if symptoms.contains symptom then get_combined_weight e symptom else 0)
  let count : ℚ := symptoms.length
  let avg_severity : ℚ :=
    if symptoms = [] then 0
    else (symptoms.map (fun s => get_combined_weight e s)).sum / symptoms.length
  let cooc_score : ℚ := coocSum e symptoms
  let max_severity : ℚ :=
    if symptoms = [] then 0
    else ((symptoms.map (fun s => get_combined_weight e s)).max?).getD 0
  presence ++ [count, avg_severity, cooc_score, max_severity]

/-! ### Claim C9: idempotence of `_normalize_symptom` -/

/-- Characters that can appear in the output of `normalize_symptom`: digits,
lowercase ASCII letters, and underscore. -/
def goodChar (c : Nat) : Bool := (48 ≤ c && c ≤ 57) || (97 ≤ c && c ≤ 122) || c = 95

/-! ### `HealthcareAssistant._rerank_predictions`

```python
reranked = []
user_set = set(user_symptoms)
for disease, prob in predictions:
    disease_symptoms = self.disease_symptom_map.get(disease.lower(), set())
    if disease_symptoms and user_set:
        overlap = len(user_set & disease_symptoms)
        union = len(user_set | disease_symptoms)
        jaccard = overlap / union if union > 0 else 0
        precision = overlap / len(user_set) if user_set else 0
        recall = overlap / len(disease_symptoms) if disease_symptoms else 0
        f1 = 2 * precision * recall / (precision + recall) if (precision + recall) > 0 else 0
        combined = (prob * 0.5) + (jaccard * 0.15) + (precision * 0.2) + (f1 * 0.15)
    else:
        combined = prob
    reranked.append((disease, combined))
reranked.sort(key=lambda x: x[1], reverse=True)
max_score = max(r[1] for r in reranked) if reranked else 1
reranked = [(d, min(s/max_score, 1.0)) for d, s in reranked]
```
`disease_symptom_map.get(·, set())` is modelled as a total function into
`Finset String`. -/

/-- The combined score computed for a single `(disease, prob)` candidate inside
the loop of `_rerank_predictions` (`recallV` models the Python variable
`recall`, whose name is reserved in Lean). -/
def rerankCombined (disease_symptom_map : String → Finset String)
    (user_set : Finset String) (pred : String × ℚ) : ℚ :=
  let disease_symptoms := disease_symptom_map (pyLowerStr pred.1)
  if disease_symptoms ≠ ∅ ∧ user_set ≠ ∅ then
    let overlap : ℚ := ((user_set ∩ disease_symptoms).card : ℚ)
    let union : ℚ := ((user_set ∪ disease_symptoms).card : ℚ)
    let jaccard : ℚ := if union > 0 then overlap / union else 0
    let precision : ℚ := if user_set ≠ ∅ then overlap / (user_set.card : ℚ) else 0
    let recallV : ℚ := if disease_symptoms ≠ ∅ then overlap / (disease_symptoms.card : ℚ) else 0
    let f1 : ℚ :=
      if precision + recallV > 0 then 2 * precision * recallV / (precision + recallV) else 0
    pred.2 * 0.5 + jaccard * 0.15 + precision * 0.2 + f1 * 0.15
  else pred.2

/-- Descending order on `(disease, score)` pairs: the comparison used by
`reranked.sort(key=lambda x: x[1], reverse=True)`. -/
def rerank_rel : (String × ℚ) → (String × ℚ) → Prop := fun a b => b.2 ≤ a.2

instance : DecidableRel rerank_rel := fun a b => inferInstanceAs (Decidable (b.2 ≤ a.2))

instance : IsTotal (String × ℚ) rerank_rel := ⟨fun a b => le_total b.2 a.2⟩

instance : IsTrans (String × ℚ) rerank_rel := ⟨fun _ _ _ h h' => le_trans h' h⟩

/-- Embedding of `HealthcareAssistant._rerank_predictions` (Python's `list.sort` is a stable
sort; modelled by insertion sort, which is also stable). -/
def _rerank_predictions (disease_symptom_map : String → Finset String)
    (user_symptoms : List String) (predictions : List (String × ℚ)) : List (String × ℚ) :=
  let user_set := user_symptoms.toFinset
  let reranked := predictions.map (fun p => (p.1, rerankCombined disease_symptom_map user_set p))
  let sorted := List.insertionSort rerank_rel reranked
  -- `max(r[1] for r in reranked) if reranked else 1`: `max?` is `none` exactly on
  -- the empty list, so `getD 1` implements the guarded `max`
  let max_score : ℚ := ((sorted.map Prod.snd).max?).getD 1
  sorted.map (fun p => (p.1, min (p.2 / max_score) 1))

/-! ### IDF at fit time (`calculate_symptom_weights`, claim C6)

A training table is modelled as a list of rows, each row being the raw
disease-column cell paired with the (normalised) symptoms appearing in that
row.  `calculate_symptom_weights` walks the rows once, de-duplicating symptoms
within a row via `seen_symptoms`, so `symptom_doc_freq[symptom]` is the number
of **rows** containing the symptom; `total_diseases` is
`df_main[disease_col].nunique()`. -/

/-- Embedding of `df_main[disease_col].nunique()`. -/
def totalDiseases (rows : List (String × List String)) : ℕ :=
  ((rows.map Prod.fst).dedup).length

/-- Embedding of `symptom_doc_freq[symptom]` as accumulated by `calculate_symptom_weights`:
one increment per row whose symptom set contains `s`. -/
def symptom_doc_freq (rows : List (String × List String)) (s : String) : ℕ :=
  (rows.filter (fun r => s ∈ r.2)).length

/-- The number of distinct diseases whose records contain `s`.  This is what
the claim (and the `AdvancedFeatureEngineer._calculate_symptom_idf` variant,
which counts `(df.groupby(target_col)[symptom].sum() > 0).sum()`) uses as the
IDF denominator. -/
def distinctDiseasesWith (rows : List (String × List String)) (s : String) : ℕ :=
  (((rows.filter (fun r => s ∈ r.2)).map Prod.fst).dedup).length

/-- The rational argument of `np.log` in
`idf = np.log((total_diseases + 1) / (doc_freq + 1)) + 1`
(`Feature_Engineering.calculate_symptom_weights`). -/
def idf_arg (rows : List (String × List String)) (s : String) : ℚ :=
  ((totalDiseases rows : ℚ) + 1) / ((symptom_doc_freq rows s : ℚ) + 1)

/-- The rational argument of `log` in the claim's formula
`log((numDiseases+1)/(diseasesContainingSymptom+1)) + 1` with
`diseasesContainingSymptom` the number of distinct diseases containing the
symptom. -/
def claim_idf_arg (rows : List (String × List String)) (s : String) : ℚ :=
  ((totalDiseases rows : ℚ) + 1) / ((distinctDiseasesWith rows s : ℚ) + 1)

/-! ### `augment_training_data` (claim C7)

```python
for disease, symptoms in disease_symptom_map.items():
    symptoms_list = list(symptoms)
    if len(symptoms_list) < 2:
        ... append original sample ...; continue
    ... append original sample ...
    for aug_idx in range(augmentation_factor):
        ratio = 0.5 + (aug_idx / augmentation_factor) * 0.5
        n_symptoms = max(2, int(len(symptoms_list) * ratio))
        np.random.seed(hash(disease) % (2**32) + aug_idx)
        selected = np.random.choice(symptoms_list, n_symptoms, replace=False)
        ...
    for noise_idx in range(2):
        np.random.seed(hash(disease) % (2**32) + augmentation_factor + noise_idx)
        noise_symptoms = set(np.random.choice(all_symptoms_list, min(2, len(all_symptoms_list)), replace=False))
        noisy_symptoms = symptoms | noise_symptoms
        ...
```
`hash` is Python's salted string hash (session-dependent), modelled as an
abstract function `pyHash`; the seeded sampler `np.random.choice` is modelled
as an abstract function `choice seed n pool` of the seed set immediately
before the call.  `int(len * ratio)` with
`ratio = 0.5 + (aug_idx/factor)*0.5` is the truncation
`len*(factor+aug_idx) / (2*factor)` (exact for these small integers). -/

def augment_training_data (pyHash : String → ℕ)
    (choice : ℕ → ℕ → List String → List String)
    (e : SymptomFeatureEngineer) (all_symptoms_list : List String)
    (augmentation_factor : ℕ)
    (disease_symptom_map : List (String × List String)) :
    List (List ℚ) × List String :=
  disease_symptom_map.foldl (fun acc ds =>
    let disease := ds.1
    let symptoms := ds.2
    if symptoms.length < 2 then
      (acc.1 ++ [create_enhanced_features e symptoms all_symptoms_list], acc.2 ++ [disease])
    else
      let acc0 := (acc.1 ++ [create_enhanced_features e symptoms all_symptoms_list],
                   acc.2 ++ [disease])
      let acc1 := (List.range augmentation_factor).foldl (fun acc aug_idx =>
        let n_symptoms := max 2 ((symptoms.length * (augmentation_factor + aug_idx)) /
            (2 * augmentation_factor))
        let seed := pyHash disease % 2 ^ 32 + aug_idx
        let selected := choice seed n_symptoms symptoms
        (acc.1 ++ [create_enhanced_features e selected all_symptoms_list],
         acc.2 ++ [disease])) acc0
      (List.range 2).foldl (fun acc noise_idx =>
        let seed := pyHash disease % 2 ^ 32 + augmentation_factor + noise_idx
        let noise_symptoms := choice seed (min 2 all_symptoms_list.length) all_symptoms_list
        let noisy_symptoms := symptoms ∪ noise_symptoms
        (acc.1 ++ [create_enhanced_features e noisy_symptoms all_symptoms_list],
         acc.2 ++ [disease])) acc1) ([], [])

/-- An engineer state with no fitted weights (every combined weight defaults
to 1) and no co-occurrence counts. -/
def trivial_engineer : SymptomFeatureEngineer :=
  ⟨fun _ => none, fun _ _ => 0⟩

/-! ### `SymptomExtractor` (`Interract.py`)

The module-level dictionaries, transcribed with Python `dict` semantics: a
duplicate key keeps its first position and its **last** value (the source
literal repeats the key `\x27feeling sick\x27`, whose effective value is
`[\x27nausea\x27]`).  `SINGLE_WORD_SYMPTOMS` has no duplicate keys.  The
`sick_indicator_phrases` / `no_symptom_phrases` / `blacklist_words`
collections come from `SymptomExtractor.__init__`. -/

def SYMPTOM_PHRASES : List (String × List String) := [
  ("not feeling well", ["malaise", "fatigue", "weakness"]),
  ("not feeling good", ["malaise", "fatigue", "weakness"]),
  ("feeling unwell", ["malaise", "fatigue", "weakness"]),
  ("feel unwell", ["malaise", "fatigue", "weakness"]),
  ("feeling sick", ["nausea"]),
  ("feel sick", ["malaise", "nausea"]),
  ("feeling ill", ["malaise", "fatigue"]),
  ("feel ill", ["malaise", "fatigue"]),
  ("feeling bad", ["malaise", "fatigue"]),
  ("under the weather", ["malaise", "fatigue", "cold"]),
  ("difficulty in urination", ["difficult_urination", "painful_urination"]),
  ("difficulty urinating", ["difficult_urination", "painful_urination"]),
  ("painful urination", ["painful_urination", "burning_micturition"]),
  ("burning urination", ["burning_micturition"]),
  ("frequent urination", ["frequent_urination", "polyuria"]),
  ("blood in urine", ["blood_in_urine"]),
  ("cant pee", ["difficult_urination"]),
  ("hard to urinate", ["difficult_urination"]),
  ("high fever", ["high_fever", "fever"]),
  ("mild fever", ["mild_fever", "fever"]),
  ("fever", ["fever"]),
  ("temperature", ["fever"]),
  ("feeling hot", ["fever"]),
  ("bad headache", ["headache", "severe_headache"]),
  ("severe headache", ["severe_headache", "headache"]),
  ("headache", ["headache"]),
  ("head hurts", ["headache"]),
  ("head pain", ["headache"]),
  ("migraine", ["headache", "migraine"]),
  ("very tired", ["fatigue", "weakness"]),
  ("feeling tired", ["fatigue"]),
  ("exhausted", ["fatigue", "weakness"]),
  ("no energy", ["fatigue", "weakness"]),
  ("weakness", ["weakness"]),
  ("fatigue", ["fatigue"]),
  ("lethargic", ["lethargy", "fatigue"]),
  ("stomach pain", ["stomach_pain", "abdominal_pain"]),
  ("stomach ache", ["stomach_pain", "abdominal_pain"]),
  ("belly pain", ["abdominal_pain"]),
  ("abdominal pain", ["abdominal_pain"]),
  ("nausea", ["nausea"]),
  ("want to vomit", ["nausea", "vomiting"]),
  ("vomiting", ["vomiting"]),
  ("throwing up", ["vomiting"]),
  ("diarrhea", ["diarrhoea"]),
  ("loose motion", ["diarrhoea"]),
  ("loose stool", ["diarrhoea"]),
  ("constipation", ["constipation"]),
  ("acidity", ["acidity", "heartburn"]),
  ("heartburn", ["heartburn", "acidity"]),
  ("indigestion", ["indigestion"]),
  ("bloating", ["bloating", "stomach_bloating"]),
  ("gas", ["gas", "bloating"]),
  ("cough", ["cough"]),
  ("coughing", ["cough"]),
  ("dry cough", ["cough"]),
  ("wet cough", ["cough", "phlegm"]),
  ("cold", ["cold", "common_cold"]),
  ("runny nose", ["runny_nose"]),
  ("blocked nose", ["congestion", "nasal_congestion"]),
  ("stuffy nose", ["congestion", "nasal_congestion"]),
  ("sneezing", ["sneezing", "continuous_sneezing"]),
  ("shortness of breath", ["shortness_of_breath", "breathlessness"]),
  ("difficulty breathing", ["breathlessness", "shortness_of_breath"]),
  ("hard to breathe", ["breathlessness"]),
  ("cant breathe", ["breathlessness"]),
  ("wheezing", ["wheezing"]),
  ("chest congestion", ["congestion_in_chest"]),
  ("chest pain", ["chest_pain"]),
  ("chest hurts", ["chest_pain"]),
  ("heart pain", ["chest_pain"]),
  ("palpitations", ["palpitations", "fast_heart_rate"]),
  ("heart racing", ["palpitations", "fast_heart_rate"]),
  ("sweating", ["sweating", "excessive_sweating"]),
  ("skin rash", ["skin_rash", "rash"]),
  ("rash", ["skin_rash", "rash"]),
  ("itching", ["itching"]),
  ("itchy skin", ["itching"]),
  ("red skin", ["redness", "skin_rash"]),
  ("acne", ["acne", "pimples"]),
  ("pimples", ["acne", "pimples"]),
  ("yellow skin", ["yellowish_skin", "jaundice"]),
  ("skin peeling", ["skin_peeling"]),
  ("dry skin", ["dry_skin"]),
  ("body pain", ["body_pain", "muscle_pain"]),
  ("body ache", ["body_pain", "muscle_pain"]),
  ("muscle pain", ["muscle_pain"]),
  ("joint pain", ["joint_pain"]),
  ("knee pain", ["joint_pain", "knee_pain"]),
  ("back pain", ["back_pain"]),
  ("neck pain", ["neck_pain"]),
  ("leg pain", ["leg_pain"]),
  ("anxiety", ["anxiety"]),
  ("feeling anxious", ["anxiety"]),
  ("depression", ["depression"]),
  ("feeling sad", ["depression"]),
  ("cant sleep", ["insomnia", "sleeplessness"]),
  ("insomnia", ["insomnia"]),
  ("sleeplessness", ["insomnia", "sleeplessness"]),
  ("dizziness", ["dizziness"]),
  ("feeling dizzy", ["dizziness"]),
  ("vertigo", ["dizziness", "vertigo"]),
  ("confusion", ["confusion", "altered_sensorium"]),
  ("mood swings", ["mood_swings"]),
  ("irritability", ["irritability"]),
  ("stress", ["anxiety", "stress"]),
  ("blurred vision", ["blurred_vision"]),
  ("blurry vision", ["blurred_vision"]),
  ("eye pain", ["pain_in_eye"]),
  ("red eyes", ["redness_in_eye"]),
  ("watery eyes", ["watering_from_eyes"]),
  ("sore throat", ["sore_throat"]),
  ("throat pain", ["sore_throat"]),
  ("difficulty swallowing", ["difficulty_swallowing"]),
  ("hard to swallow", ["difficulty_swallowing"]),
  ("weight loss", ["weight_loss"]),
  ("losing weight", ["weight_loss"]),
  ("weight gain", ["weight_gain"]),
  ("gaining weight", ["weight_gain"]),
  ("loss of appetite", ["loss_of_appetite"]),
  ("not hungry", ["loss_of_appetite"]),
  ("excessive hunger", ["excessive_hunger"]),
  ("always hungry", ["excessive_hunger"]),
  ("increased thirst", ["excessive_thirst", "polydipsia"]),
  ("very thirsty", ["excessive_thirst"]),
  ("swelling", ["swelling"]),
  ("swollen", ["swelling"]),
  ("chills", ["chills"]),
  ("shivering", ["shivering", "chills"]),
  ("night sweats", ["night_sweats"]),
  ("dehydration", ["dehydration"]),
  ("my head hurts", ["headache"]),
  ("head is pounding", ["headache", "severe_headache"]),
  ("splitting headache", ["severe_headache"]),
  ("tummy ache", ["stomach_pain", "abdominal_pain"]),
  ("upset stomach", ["stomach_pain", "nausea", "indigestion"]),
  ("stomach upset", ["stomach_pain", "nausea"]),
  ("running a fever", ["fever"]),
  ("burning up", ["high_fever"]),
  ("feel feverish", ["fever"]),
  ("feel like vomiting", ["nausea"]),
  ("feel nauseous", ["nausea"]),
  ("out of breath", ["shortness_of_breath"]),
  ("gasping for air", ["breathlessness"]),
  ("trouble breathing", ["breathlessness"]),
  ("feeling weak", ["weakness", "fatigue"]),
  ("no strength", ["weakness"]),
  ("body feels weak", ["weakness", "fatigue"]),
  ("skin is itchy", ["itching"]),
  ("scratching a lot", ["itching"]),
  ("itchy all over", ["itching"]),
  ("feeling numb", ["numbness"]),
  ("pins and needles", ["tingling"]),
  ("tingling sensation", ["tingling"]),
  ("cant eat", ["loss_of_appetite"]),
  ("dont feel like eating", ["loss_of_appetite"]),
  ("no appetite", ["loss_of_appetite"]),
  ("peeing a lot", ["frequent_urination"]),
  ("going to bathroom frequently", ["frequent_urination"]),
  ("burning when i pee", ["burning_micturition"]),
  ("seeing double", ["blurred_vision"]),
  ("vision is blurry", ["blurred_vision"]),
  ("eyes are blurry", ["blurred_vision"]),
  ("feeling cold", ["chills"]),
  ("getting chills", ["chills"]),
  ("body shaking", ["shivering"]),
  ("yellow eyes", ["yellowing_of_eyes", "jaundice"]),
  ("skin turning yellow", ["yellowish_skin", "jaundice"]),
  ("swollen legs", ["swelling_of_legs", "swelling"]),
  ("feet are swollen", ["swelling_of_legs", "swelling"]),
  ("face is puffy", ["puffy_face", "swelling"]),
  ("muscle cramps", ["muscle_cramps", "cramps"]),
  ("leg cramps", ["cramps", "muscle_cramps"]),
  ("feeling faint", ["dizziness", "fainting"]),
  ("about to faint", ["dizziness", "fainting"]),
  ("passed out", ["fainting", "loss_of_consciousness"]),
  ("memory problems", ["memory_loss"]),
  ("cant remember", ["memory_loss"]),
  ("forgetful", ["memory_loss"]),
  ("trouble sleeping", ["insomnia", "sleeplessness"]),
  ("cant fall asleep", ["insomnia"]),
  ("waking up at night", ["insomnia"]),
  ("sleeping too much", ["excessive_sleep", "fatigue"]),
  ("always sleepy", ["fatigue", "lethargy"]),
  ("feeling restless", ["restlessness", "anxiety"]),
  ("cant sit still", ["restlessness"]),
  ("heart beating fast", ["palpitations", "fast_heart_rate"]),
  ("heart pounding", ["palpitations"]),
  ("irregular heartbeat", ["irregular_heartbeat", "palpitations"]),
  ("chest tightness", ["chest_pain", "chest_tightness"]),
  ("pressure in chest", ["chest_pain"]),
  ("burning in chest", ["heartburn", "chest_pain"])
]

def SINGLE_WORD_SYMPTOMS : List (String × List String) := [
  ("fever", ["fever"]),
  ("headache", ["headache"]),
  ("cough", ["cough"]),
  ("cold", ["cold"]),
  ("fatigue", ["fatigue"]),
  ("tired", ["fatigue"]),
  ("weakness", ["weakness"]),
  ("nausea", ["nausea"]),
  ("vomiting", ["vomiting"]),
  ("diarrhea", ["diarrhoea"]),
  ("constipation", ["constipation"]),
  ("acidity", ["acidity"]),
  ("itching", ["itching"]),
  ("rash", ["skin_rash"]),
  ("sweating", ["sweating"]),
  ("chills", ["chills"]),
  ("dizziness", ["dizziness"]),
  ("anxiety", ["anxiety"]),
  ("depression", ["depression"]),
  ("insomnia", ["insomnia"]),
  ("sneezing", ["sneezing"]),
  ("wheezing", ["wheezing"]),
  ("bloating", ["bloating"]),
  ("swelling", ["swelling"]),
  ("palpitations", ["palpitations"])
]

def sick_indicator_phrases : List String := [
  "not feeling well",
  "not feeling good",
  "not feeling fine",
  "not feeling okay",
  "not feeling ok",
  "dont feel well",
  "don\x27t feel well",
  "dont feel good",
  "don\x27t feel good",
  "not well",
  "not good",
  "not fine",
  "not okay",
  "feeling unwell",
  "feel unwell",
  "feeling sick",
  "feel sick",
  "feeling bad",
  "feel bad",
  "feeling ill",
  "feel ill",
  "feeling terrible",
  "feeling awful",
  "feeling worse",
  "something wrong",
  "something is wrong",
  "not right",
  "under the weather",
  "came down with"
]

def no_symptom_phrases : List String := [
  "no symptom",
  "no symptoms",
  "i am fine",
  "i am well",
  "i am good",
  "i am okay",
  "i am ok",
  "nothing wrong",
  "no problem",
  "no issues",
  "all good",
  "doing well",
  "doing fine",
  "doing good",
  "not sick",
  "no pain",
  "no discomfort",
  "perfectly fine",
  "completely fine",
  "totally fine",
  "absolutely fine",
  "feeling well",
  "feeling good",
  "feeling fine",
  "feeling great",
  "feeling okay",
  "feeling ok",
  "feeling healthy",
  "feeling better",
  "feel well",
  "feel good",
  "feel fine",
  "feel great",
  "feel okay",
  "i feel well",
  "i feel good",
  "i feel fine",
  "i feel great",
  "im fine",
  "i\x27m fine",
  "im good",
  "i\x27m good",
  "im okay",
  "i\x27m okay",
  "im well",
  "i\x27m well",
  "healthy",
  "just checking",
  "just testing"
]

def blacklist_words : List String := [
  "has",
  "feel",
  "an",
  "okay",
  "healthy",
  "have",
  "are",
  "good",
  "the",
  "feeling",
  "me",
  "none",
  "i",
  "nothing",
  "well",
  "my",
  "had",
  "is",
  "normal",
  "am",
  "was",
  "a",
  "fine",
  "ok",
  "symptoms"
]

/-- Embedding of `string.punctuation`. -/
def pyPunctuation : String := "!\"#$%&\x27()*+,-./:;<=>?@[\\]^_\x60\x7b|\x7d~"

/-- Python whitespace on `Char`s (space, tab, newline, vertical tab, form
feed, carriage return). -/
def isSpaceChar (c : Char) : Bool :=
  c = ' ' || c = '\t' || c = '\n' || c = '\x0b' || c = '\x0c' || c = '\r'

/-- Regex `\w` (ASCII): alphanumeric or underscore. -/
def isWordChar (c : Char) : Bool := c.isAlphanum || c = '_'

/-- The character class kept by `re.sub(r'[^\w\s\x27\-,.]', ' ', text)`. -/
def sanitizeKeep (c : Char) : Bool :=
  isWordChar c || isSpaceChar c || c = '\x27' || c = '-' || c = ',' || c = '.'

/-- Replace every maximal whitespace run by a single space
(`re.sub(r'\s+', ' ', text)`). -/
def collapseWs : List Char → List Char
  | [] => []
  | c :: rest =>
      let tail := collapseWs rest
      if isSpaceChar c then
        match tail with
        | ' ' :: _ => tail
        | _ => ' ' :: tail
      else c :: tail

/-- Embedding of `str.strip()` on a character list. -/
def stripChars (l : List Char) : List Char :=
  ((l.dropWhile (fun c => isSpaceChar c)).reverse.dropWhile (fun c => isSpaceChar c)).reverse

/-- Embedding of `SymptomExtractor._sanitize_input`:
```python
text = user_input.lower().strip()
text = ' '.join(text.split())
text = re.sub(r'[^\w\s\x27\-,.]', ' ', text)
text = re.sub(r'\s+', ' ', text)
return text.strip()
```
(`' '.join(text.split())` removes the outer whitespace and collapses every
inner whitespace run to one space, i.e. strip-then-collapse). -/
def _sanitize_input (user_input : String) : String :=
  let t1 := stripChars (user_input.data.map Char.toLower)
  let t2 := collapseWs (stripChars t1)
  let t3 := t2.map (fun c => if sanitizeKeep c then c else ' ')
  let t4 := collapseWs t3
  ⟨stripChars t4⟩

/-- Embedding of `SymptomExtractor._check_is_user_healthy`: sick-indicator phrases take
priority; then no-symptom phrases; default `False`. -/
def _check_is_user_healthy (user_input : String) : Bool :=
  if sick_indicator_phrases.any (fun phrase => strContains user_input phrase) then false
  else if no_symptom_phrases.any (fun phrase => strContains user_input phrase) then true
  else false

/-- Embedding of `symptom.lower().replace(' ', '_').replace('-', '_')` at the start of
`_fuzzy_match`. -/
def fuzzyNormalize (s : String) : String :=
  ⟨s.data.map (fun c =>
    let c := c.toLower
    if c = ' ' then '_' else if c = '-' then '_' else c)⟩

/-- One step of the token-overlap loop of `_fuzzy_match`, tracking
`(best_match, best_score)`.  Python's `len(x) > 2` filters and `set(...)`
de-duplication are modelled with `dedup`; `score > best_score and
score >= threshold` is the update condition. -/
def tokenOverlapStep (symptom_tokens : List String) (threshold : ℚ)
    (acc : Option String × ℚ) (known : String) : Option String × ℚ :=
  let known_tokens := ((known.splitOn "_").filter (fun t => 2 < t.length)).dedup
  if known_tokens = [] then acc
  else
    let overlap := (symptom_tokens.filter (fun t => known_tokens.contains t)).length
    if 0 < overlap then
      let score : ℚ := (overlap : ℚ) / (max symptom_tokens.length known_tokens.length : ℚ)
      if acc.2 < score ∧ threshold ≤ score then (some known, score) else acc
    else acc

/-- Embedding of `SymptomExtractor._fuzzy_match(symptom, threshold)`.  The float conditions
`len(a) >= len(b)*0.6` are written as the exact integer inequalities
`3*len(b) ≤ 5*len(a)` (equivalent for these magnitudes). -/
def _fuzzy_match (known_symptoms : List String) (symptom : String) (threshold : ℚ) :
    Option String :=
  let symptom_normalized := fuzzyNormalize symptom
  if symptom_normalized.length < 4 then none
  else if blacklist_words.contains symptom_normalized then none
  else if known_symptoms.contains symptom_normalized then some symptom_normalized
  else
    match known_symptoms.find? (fun known =>
        decide (5 ≤ symptom_normalized.length) &&
          ((strContains known symptom_normalized &&
              decide (3 * known.length ≤ 5 * symptom_normalized.length)) ||
           (strContains symptom_normalized known &&
              decide (3 * symptom_normalized.length ≤ 5 * known.length)))) with
    | some known => some known
    | none =>
        let symptom_tokens := (((fuzzyNormalize symptom).splitOn "_").filter
            (fun t => !blacklist_words.contains t && 2 < t.length)).dedup
        if symptom_tokens = [] then none
        else (known_symptoms.foldl (tokenOverlapStep symptom_tokens threshold) (none, 0)).1

/-- Embedding of `extracted_symptoms.add(s)`: a Python `set` held as a duplicate-free list
in insertion order. -/
def addSymptom (s : String) (acc : List String) : List String :=
  if s ∈ acc then acc else acc ++ [s]

/-- The body of the phrase loop for one mapped symptom: add it when it is in
the vocabulary, otherwise try `_fuzzy_match` (default threshold 0.8); the
matched phrase is recorded whenever a symptom is added. -/
def phraseSymbolStep (known : List String) (phrase : String)
    (acc : List String × List String) (symptom : String) : List String × List String :=
  if known.contains symptom then (addSymptom symptom acc.1, acc.2 ++ [phrase])
  else
    match _fuzzy_match known symptom (0.8 : ℚ) with
    | some matched => (addSymptom matched acc.1, acc.2 ++ [phrase])
    | none => acc

/-- One `SYMPTOM_PHRASES` entry of the phrase-matching loop of
`extract_symptoms`. -/
def phraseStep (known : List String) (user_input : String)
    (acc : List String × List String) (entry : String × List String) :
    List String × List String :=
  if strContains user_input entry.1 then
    entry.2.foldl (phraseSymbolStep known entry.1) acc
  else acc

/-- Embedding of `word.strip(punctuation)`. -/
def stripPunct (w : String) : String :=
  ⟨((w.data.dropWhile (fun c => pyPunctuation.data.contains c)).reverse.dropWhile
      (fun c => pyPunctuation.data.contains c)).reverse⟩

/-- Embedding of `str.split()` (split on whitespace runs, dropping empty words). -/
def pySplit (s : String) : List String :=
  ((s.data.splitOnP (fun c => isSpaceChar c)).filter (fun w => w ≠ [])).map
    (fun w => (⟨w⟩ : String))

/-- The body of the single-word loop for one mapped symptom (vocabulary check,
then `_fuzzy_match` at the default threshold 0.8). -/
def singleSymbolStep (known : List String) (acc : List String) (symptom : String) :
    List String :=
  if known.contains symptom then addSymptom symptom acc
  else
    match _fuzzy_match known symptom (0.8 : ℚ) with
    | some matched => addSymptom matched acc
    | none => acc

/-- One word of the single-word matching loop of `extract_symptoms`. -/
def singleWordStep (known : List String) (extracted : List String) (word : String) :
    List String :=
  let word_clean := pyLowerStr (stripPunct word)
  if blacklist_words.contains word_clean then extracted
  else
    match SINGLE_WORD_SYMPTOMS.find? (fun e => e.1 = word_clean) with
    | some e => e.2.foldl (singleSymbolStep known) extracted
    | none => extracted

/-- The fallback tokenisation step of `extract_symptoms` (step 3).  The NLTK
`word_tokenize`, stop-word list and `WordNetLemmatizer` are external
collaborators, modelled as parameters `tokenize`, `stop_words`, `lemmatize`. -/
def fallbackTokenStep (known : List String) (lemmatize : String → String)
    (acc : List String) (token : String) : List String :=
  let lemmaWord := lemmatize token
  if blacklist_words.contains lemmaWord then acc
  else
    match _fuzzy_match known lemmaWord (0.85 : ℚ) with
    | some matched => addSymptom matched acc
    | none => acc

def fallbackStep (known stop_words : List String) (tokenize : String → List String)
    (lemmatize : String → String) (user_input : String) (extracted : List String) :
    List String :=
  let tokens := (tokenize user_input).filter (fun t =>
    !stop_words.contains t && !(strContains pyPunctuation t) &&
      !blacklist_words.contains t && decide (2 < t.length))
  tokens.foldl (fallbackTokenStep known lemmatize) extracted

/-- Embedding of `SymptomExtractor.extract_symptoms`. -/
def extract_symptoms (known stop_words : List String) (tokenize : String → List String)
    (lemmatize : String → String) (user_input : String) : List String × List String :=
  let user_input := _sanitize_input user_input
  if user_input.length < 3 then ([], [])
  else if _check_is_user_healthy user_input then ([], [])
  else
    let acc := SYMPTOM_PHRASES.foldl (phraseStep known user_input) ([], [])
    let extracted := (pySplit user_input).foldl (singleWordStep known) acc.1
    let extracted :=
      if extracted = [] then
        fallbackStep known stop_words tokenize lemmatize user_input extracted
      else extracted
    (extracted, acc.2)

set_option maxRecDepth 40000

/-! ### Claim C1 -/

/-- C1: for every engineer state, every symptom set (in or out of vocabulary) and
every `all_symptoms_list`, the feature vector produced by
`create_enhanced_features` has length `len(all_symptoms_list) + 4` (the four
extra dimensions being symptom count, average weight, co-occurrence aggregate
and max weight); its dimensionality never varies with the input set. -/
theorem create_enhanced_features_length (e : SymptomFeatureEngineer)
    (symptoms all_symptoms_list : List String) :
    (create_enhanced_features e symptoms all_symptoms_list).length =
      all_symptoms_list.length + 4 := by
  simp [create_enhanced_features]

/-! ### Claim C4 -/

/-- C4: `is_emergency` returns `True` whenever the normalised symptom list
contains `chest_pain` (whatever the severity score), and returns `True`
whenever the severity score exceeds the fixed threshold `20` (whatever the
symptoms). -/
theorem is_emergency_spec (symptoms : List (List Nat)) (severity_score : ℚ) :
    (some (str2c "chest_pain") ∈ symptoms.map normalize_symptom →
      is_emergency symptoms severity_score = true) ∧
    (severity_score > 20 → is_emergency symptoms severity_score = true) := by
  constructor
  · intro h
    have hmem : emergency_symptoms.any
        (fun es => (symptoms.map normalize_symptom).contains (some es)) = true := by
      rw [List.any_eq_true]
      refine ⟨str2c "chest_pain", ?_, ?_⟩
      · simp [emergency_symptoms, str2c]
      · simpa [List.contains, List.elem_eq_mem] using h
    simp only [is_emergency, Bool.or_eq_true]
    exact Or.inl hmem
  · intro h
    simp only [is_emergency, Bool.or_eq_true, decide_eq_true_eq]
    exact Or.inr h

/-- Witness for C4 at concrete inputs: `["Chest Pain"]` with severity 0 is an
emergency, and no symptoms with severity 21 is an emergency. -/
theorem is_emergency_spec_witness :
    (some (str2c "chest_pain") ∈ [str2c "Chest Pain"].map normalize_symptom ∧
      is_emergency [str2c "Chest Pain"] 0 = true) ∧
    ((21 : ℚ) > 20 ∧ is_emergency [] 21 = true) :=
  ⟨⟨by decide, (is_emergency_spec [str2c "Chest Pain"] 0).1 (by decide)⟩,
   ⟨by norm_num, (is_emergency_spec [] 21).2 (by norm_num)⟩⟩

/-! ### Claim C10 -/

/-- C10: `get_specialist_recommendation` is total and never empty: every result
is a non-empty specialist name, and when no mapped keyword occurs in the
lowercased disease name the result is exactly `General Physician`. -/
theorem get_specialist_recommendation_spec (disease : String) :
    get_specialist_recommendation disease ≠ "" ∧
      ((∀ kv ∈ specialist_map, strContains (pyLowerStr disease) kv.1 = false) →
        get_specialist_recommendation disease = "General Physician") := by
  constructor
  · simp only [get_specialist_recommendation]
    cases hfind : specialist_map.find? (fun kv => strContains (pyLowerStr disease) kv.1) with
    | none => simp
    | some kv =>
        have hmem := List.mem_of_find?_eq_some hfind
        have hne : ∀ p ∈ specialist_map, p.2 ≠ "" := by decide
        simpa using hne kv hmem
  · intro h
    simp only [get_specialist_recommendation]
    have hnone : specialist_map.find? (fun kv => strContains (pyLowerStr disease) kv.1) = none := by
      rw [List.find?_eq_none]
      intro kv hkv
      simp [h kv hkv]
    rw [hnone]

/-- Witness for C10: a disease name matching no keyword maps to `General
Physician`, which is non-empty. -/
theorem get_specialist_recommendation_spec_witness :
    get_specialist_recommendation "Mystery Ailment" ≠ "" ∧
      get_specialist_recommendation "Mystery Ailment" = "General Physician" :=
  ⟨(get_specialist_recommendation_spec "Mystery Ailment").1,
   (get_specialist_recommendation_spec "Mystery Ailment").2 (by decide)⟩

theorem map_eq_self_of_fixed {α : Type} (f : α → α) :
    ∀ (l : List α), (∀ c ∈ l, f c = c) → l.map f = l
  | [], _ => rfl
  | a :: l, h => by
      simp only [List.map_cons, h a (List.mem_cons_self a l)]
      rw [map_eq_self_of_fixed f l (fun c hc => h c (List.mem_cons_of_mem a hc))]

theorem dropWhile_eq_self_of_none {α : Type} (p : α → Bool) (l : List α)
    (h : ∀ c ∈ l, p c = false) : l.dropWhile p = l := by
  cases l with
  | nil => rfl
  | cons a l => simp [List.dropWhile_cons, h a (List.mem_cons_self a l)]

theorem pyStrip_eq_self (l : List Nat) (h : ∀ c ∈ l, isPySpace c = false) :
    pyStrip l = l := by
  unfold pyStrip
  rw [dropWhile_eq_self_of_none _ l h,
    dropWhile_eq_self_of_none _ l.reverse (fun c hc => h c (List.mem_reverse.mp hc)),
    List.reverse_reverse]

theorem pyStrip_sublist (l : List Nat) : List.Sublist (pyStrip l) l := by
  have base := (List.dropWhile_sublist
      (l := (l.dropWhile (fun c => isPySpace c)).reverse) (fun c => isPySpace c)).reverse
  rw [List.reverse_reverse] at base
  exact base.trans (List.dropWhile_sublist _)

/-- Every character of the output of `normalize_symptom` is a digit, a
lowercase letter or an underscore. -/
theorem normalize_symptom_chars (s t : List Nat) (h : normalize_symptom s = some t) :
    t ≠ [] ∧ ∀ c ∈ t, goodChar c = true := by
  simp only [normalize_symptom] at h
  split_ifs at h with h1 h2
  have ht : t = ((pyStrip (s.map pyLowerChar)).map (fun c => if c = 32 then 95 else c)
      |>.map (fun c => if c = 45 then 95 else c)
      |>.filter (fun c => isPyAlnum c || c = 95)) := (Option.some.inj h).symm
  constructor
  · rw [ht]; exact h2
  intro c hc
  rw [ht, List.mem_filter] at hc
  obtain ⟨hc3, hkeep⟩ := hc
  rw [List.mem_map] at hc3
  obtain ⟨b, hb, hcb⟩ := hc3
  rw [List.mem_map] at hb
  obtain ⟨a, ha, hba⟩ := hb
  have ha' : a ∈ s.map pyLowerChar := (pyStrip_sublist _).subset ha
  rw [List.mem_map] at ha'
  obtain ⟨d, _, hda⟩ := ha'
  -- `c` is the image of `d` under lower, space→underscore, hyphen→underscore,
  -- and passed the alnum-or-underscore filter
  subst hcb hba hda
  simp only [isPyAlnum, pyLowerChar, goodChar, Bool.or_eq_true, Bool.and_eq_true,
    decide_eq_true_eq] at hkeep ⊢
  split_ifs at hkeep ⊢ <;> omega

/-- C9: `_normalize_symptom` is idempotent: whenever it returns a (non-`None`)
normalised symptom, normalising that output again returns it unchanged. -/
theorem normalize_symptom_idempotent (s t : List Nat)
    (h : normalize_symptom s = some t) : normalize_symptom t = some t := by
  obtain ⟨hne, hgood⟩ := normalize_symptom_chars s t h
  have hbounds : ∀ c ∈ t, (48 ≤ c ∧ c ≤ 57) ∨ (97 ≤ c ∧ c ≤ 122) ∨ c = 95 := by
    intro c hc
    have := hgood c hc
    simp only [goodChar, Bool.or_eq_true, Bool.and_eq_true, decide_eq_true_eq] at this
    tauto
  have hlower : t.map pyLowerChar = t := by
    refine map_eq_self_of_fixed _ t (fun c hc => ?_)
    have := hbounds c hc
    simp only [pyLowerChar]
    split_ifs with hif
    · omega
    · rfl
  have hstrip : pyStrip t = t := by
    refine pyStrip_eq_self t (fun c hc => ?_)
    have := hbounds c hc
    simp only [isPySpace, Bool.or_eq_false_iff, decide_eq_false_iff_not]
    omega
  have hspace : t.map (fun c => if c = 32 then 95 else c) = t := by
    refine map_eq_self_of_fixed _ t (fun c hc => ?_)
    have := hbounds c hc
    have hc32 : c ≠ 32 := by omega
    simp [hc32]
  have hhyphen : t.map (fun c => if c = 45 then 95 else c) = t := by
    refine map_eq_self_of_fixed _ t (fun c hc => ?_)
    have := hbounds c hc
    have hc45 : c ≠ 45 := by omega
    simp [hc45]
  have hfilter : t.filter (fun c => isPyAlnum c || c = 95) = t := by
    rw [List.filter_eq_self]
    intro c hc
    have := hbounds c hc
    simp only [isPyAlnum, Bool.or_eq_true, Bool.and_eq_true, decide_eq_true_eq]
    omega
  simp only [normalize_symptom]
  rw [if_neg hne, hlower, hstrip, hspace, hhyphen, hfilter, if_neg hne]

/-- Witness for C9: normalising `"Chest Pain"` yields `chest_pain`, and
normalising that output again is a no-op. -/
theorem normalize_symptom_idempotent_witness :
    normalize_symptom (str2c "Chest Pain") = some (str2c "chest_pain") ∧
      normalize_symptom (str2c "chest_pain") = some (str2c "chest_pain") :=
  ⟨by decide, normalize_symptom_idempotent (str2c "Chest Pain") (str2c "chest_pain") (by decide)⟩

/-! ### Claim C2 -/

/-- C2: inside `_rerank_predictions`, when both the stored disease signature and
the user symptom set are non-empty the pre-normalisation combined score is
`0.5·prob + 0.15·jaccard + 0.2·precision + 0.15·f1` with
`precision = |overlap|/|input|`, `recall = |overlap|/|signature|`,
`f1 = 2pr/(p+r)` (0 when `p+r = 0`) and `jaccard = |overlap|/|union|`;
when either set is empty the combined score is the raw probability. -/
theorem rerankCombined_spec (dmap : String → Finset String) (user_set : Finset String)
    (d : String) (prob : ℚ) :
    (dmap (pyLowerStr d) ≠ ∅ → user_set ≠ ∅ →
      rerankCombined dmap user_set (d, prob) =
        prob * 0.5 +
        (((user_set ∩ dmap (pyLowerStr d)).card : ℚ) /
            ((user_set ∪ dmap (pyLowerStr d)).card : ℚ)) * 0.15 +
        (((user_set ∩ dmap (pyLowerStr d)).card : ℚ) / (user_set.card : ℚ)) * 0.2 +
        (if ((user_set ∩ dmap (pyLowerStr d)).card : ℚ) / (user_set.card : ℚ) +
              ((user_set ∩ dmap (pyLowerStr d)).card : ℚ) / ((dmap (pyLowerStr d)).card : ℚ) > 0
         then 2 * (((user_set ∩ dmap (pyLowerStr d)).card : ℚ) / (user_set.card : ℚ)) *
                (((user_set ∩ dmap (pyLowerStr d)).card : ℚ) / ((dmap (pyLowerStr d)).card : ℚ)) /
                (((user_set ∩ dmap (pyLowerStr d)).card : ℚ) / (user_set.card : ℚ) +
                  ((user_set ∩ dmap (pyLowerStr d)).card : ℚ) / ((dmap (pyLowerStr d)).card : ℚ))
         else 0) * 0.15) ∧
    ((dmap (pyLowerStr d) = ∅ ∨ user_set = ∅) →
      rerankCombined dmap user_set (d, prob) = prob) := by
  constructor
  · intro hd hu
    have hunion : ((user_set ∪ dmap (pyLowerStr d)).card : ℚ) > 0 := by
      have : (user_set ∪ dmap (pyLowerStr d)).Nonempty :=
        Finset.Nonempty.inl (Finset.nonempty_iff_ne_empty.mpr hu)
      exact_mod_cast Finset.card_pos.mpr this
    simp only [rerankCombined]
    rw [if_pos (And.intro hd hu), if_pos hunion, if_pos hu, if_pos hd]
  · intro h
    have hneg : ¬ (dmap (pyLowerStr d) ≠ ∅ ∧ user_set ≠ ∅) := by tauto
    simp only [rerankCombined]
    rw [if_neg hneg]

/-- Witness for C2: a concrete signature map and user set exercising both the
non-empty branch (all four overlap statistics equal to 1) and the empty branch. -/
theorem rerankCombined_spec_witness :
    (fun _ : String => ({"cough"} : Finset String)) (pyLowerStr "Flu") ≠ ∅ ∧
    ({"cough"} : Finset String) ≠ ∅ ∧
    rerankCombined (fun _ => ({"cough"} : Finset String)) {"cough"} ("Flu", 1 / 2) =
      (1 / 2 : ℚ) * 0.5 + 1 * 0.15 + 1 * 0.2 + 1 * 0.15 ∧
    rerankCombined (fun _ => (∅ : Finset String)) {"cough"} ("Flu", 1 / 2) = 1 / 2 := by
  have h1 : (fun _ : String => ({"cough"} : Finset String)) (pyLowerStr "Flu") ≠ ∅ := by
    simp
  have h2 : ({"cough"} : Finset String) ≠ ∅ := by simp
  refine ⟨h1, h2, ?_, ?_⟩
  · have heq :=
      (rerankCombined_spec (fun _ => ({"cough"} : Finset String)) {"cough"} "Flu" (1 / 2)).1 h1 h2
    rw [heq]
    norm_num
  · exact (rerankCombined_spec (fun _ => (∅ : Finset String)) {"cough"} "Flu" (1 / 2)).2
      (Or.inl rfl)

/-! ### Claim C3 -/

/-- The guarded F1 blend is nonnegative for nonnegative precision and recall. -/
theorem ite_f1_nonneg (p r : ℚ) (hp : 0 ≤ p) (hr : 0 ≤ r) :
    0 ≤ if p + r > 0 then 2 * p * r / (p + r) else 0 := by
  split_ifs with h
  · exact div_nonneg (by nlinarith) h.le
  · exact le_refl 0

/-- With a nonnegative raw probability, the combined score is nonnegative and
at least `0.5·prob` (the three overlap terms are nonnegative). -/
theorem rerankCombined_bounds (dmap : String → Finset String) (user_set : Finset String)
    (p : String × ℚ) (h : 0 ≤ p.2) :
    p.2 * 0.5 ≤ rerankCombined dmap user_set p ∧ 0 ≤ rerankCombined dmap user_set p := by
  obtain ⟨d, q⟩ := p
  simp only at h
  by_cases hd : dmap (pyLowerStr d) = ∅
  · rw [(rerankCombined_spec dmap user_set d q).2 (Or.inl hd)]
    exact ⟨by linarith, h⟩
  by_cases hu : user_set = ∅
  · rw [(rerankCombined_spec dmap user_set d q).2 (Or.inr hu)]
    exact ⟨by linarith, h⟩
  rw [(rerankCombined_spec dmap user_set d q).1 hd hu]
  have hA : (0 : ℚ) ≤ ((user_set ∩ dmap (pyLowerStr d)).card : ℚ) /
      ((user_set ∪ dmap (pyLowerStr d)).card : ℚ) :=
    div_nonneg (Nat.cast_nonneg _) (Nat.cast_nonneg _)
  have hB : (0 : ℚ) ≤ ((user_set ∩ dmap (pyLowerStr d)).card : ℚ) / (user_set.card : ℚ) :=
    div_nonneg (Nat.cast_nonneg _) (Nat.cast_nonneg _)
  have hr : (0 : ℚ) ≤ ((user_set ∩ dmap (pyLowerStr d)).card : ℚ) /
      ((dmap (pyLowerStr d)).card : ℚ) :=
    div_nonneg (Nat.cast_nonneg _) (Nat.cast_nonneg _)
  have hC := ite_f1_nonneg _ _ hB hr
  constructor
  · nlinarith
  · nlinarith

/-- Counterexample to C3 as stated: with the candidate list
`[("a", -1), ("b", 2)]` (the claim quantifies over every candidate list, and
does not constrain the raw scores) and an empty symptom set,
`_rerank_predictions` returns `[("b", 1), ("a", -1/2)]`, whose second score
lies outside `[0, 1]`. -/
theorem rerank_predictions_range_counterexample :
    _rerank_predictions (fun _ => (∅ : Finset String)) [] [("a", -1), ("b", 2)] =
      [("b", 1), ("a", -(1 / 2))] ∧
    ¬ (∀ p ∈ _rerank_predictions (fun _ => (∅ : Finset String)) [] [("a", -1), ("b", 2)],
        0 ≤ p.2 ∧ p.2 ≤ 1) := by
  have heval : _rerank_predictions (fun _ => (∅ : Finset String)) [] [("a", -1), ("b", 2)] =
      [("b", 1), ("a", -(1 / 2))] := by
    norm_num [_rerank_predictions, rerankCombined, rerank_rel, List.insertionSort,
      List.orderedInsert, List.max?, min_def]
  refine ⟨heval, ?_⟩
  intro h
  rw [heval] at h
  have := (h ("a", -(1 / 2)) (by simp)).1
  norm_num at this

/-- Sorting by descending score and renormalising by the maximum yields a
descending list with top score 1 and all scores in `[0, 1]`, provided the
scores are nonnegative and at least one is positive. -/
theorem sorted_renorm_aux (l : List (String × ℚ)) (hne : l ≠ [])
    (hnn : ∀ x ∈ l, 0 ≤ x.2) (hpos : ∃ x ∈ l, 0 < x.2) :
    List.Pairwise (fun a b => b.2 ≤ a.2)
      ((List.insertionSort rerank_rel l).map
        (fun p => (p.1,
          min (p.2 / ((((List.insertionSort rerank_rel l).map Prod.snd).max?).getD 1)) 1))) ∧
    ((List.insertionSort rerank_rel l).map
        (fun p => (p.1,
          min (p.2 / ((((List.insertionSort rerank_rel l).map Prod.snd).max?).getD 1)) 1))).head?.map
        Prod.snd = some 1 ∧
    ∀ p ∈ (List.insertionSort rerank_rel l).map
        (fun p => (p.1,
          min (p.2 / ((((List.insertionSort rerank_rel l).map Prod.snd).max?).getD 1)) 1)),
      0 ≤ p.2 ∧ p.2 ≤ 1 := by
  set sorted := List.insertionSort rerank_rel l with hs
  have hperm : List.Perm sorted l := List.perm_insertionSort rerank_rel l
  have hpair : List.Pairwise rerank_rel sorted := List.sorted_insertionSort rerank_rel l
  have hsne : sorted ≠ [] := by
    intro hnil
    rw [hnil] at hperm
    exact hne hperm.symm.eq_nil
  obtain ⟨m, hm⟩ : ∃ m, (sorted.map Prod.snd).max? = some m := by
    cases hmax : (sorted.map Prod.snd).max? with
    | none =>
        have := List.max?_eq_none_iff.mp hmax
        rw [List.map_eq_nil_iff] at this
        exact absurd this hsne
    | some m => exact ⟨m, rfl⟩
  have hub : ∀ b ∈ sorted.map Prod.snd, b ≤ m :=
    (List.max?_le_iff (fun a b c => max_le_iff) hm).1 (le_refl m)
  have hnn' : ∀ x ∈ sorted, 0 ≤ x.2 := fun x hx => hnn x (hperm.mem_iff.mp hx)
  have hmpos : 0 < m := by
    obtain ⟨x, hx, hxpos⟩ := hpos
    have hxs : x ∈ sorted := hperm.mem_iff.mpr hx
    exact lt_of_lt_of_le hxpos (hub x.2 (List.mem_map_of_mem Prod.snd hxs))
  rw [hm]
  simp only [Option.getD_some]
  refine ⟨?_, ?_, ?_⟩
  · refine hpair.map _ (fun a b hab => ?_)
    exact min_le_min ((div_le_div_iff_of_pos_right hmpos).mpr hab) (le_refl 1)
  · cases hsx : sorted with
    | nil => exact absurd hsx hsne
    | cons x rest =>
        have hmem : m ∈ sorted.map Prod.snd := List.max?_mem (fun a b => max_choice a b) hm
        have hxm : x.2 = m := by
          have hxmem : x.2 ∈ sorted.map Prod.snd := by
            rw [hsx]
            exact List.mem_map_of_mem Prod.snd (List.mem_cons_self x rest)
          have h1 : x.2 ≤ m := hub _ hxmem
          obtain ⟨y, hy, hy2⟩ := List.mem_map.mp hmem
          rw [hsx] at hy
          rcases List.mem_cons.mp hy with rfl | hyr
          · exact le_antisymm h1 (le_of_eq hy2.symm)
          · have hrel := (List.pairwise_cons.mp (hsx ▸ hpair)).1 y hyr
            exact le_antisymm h1 (hy2 ▸ hrel)
        simp [hxm, div_self (ne_of_gt hmpos)]
  · intro p hp
    rw [List.mem_map] at hp
    obtain ⟨x, hx, rfl⟩ := hp
    exact ⟨le_min (div_nonneg (hnn' x hx) hmpos.le) zero_le_one, min_le_right _ _⟩

/-- C3, amended: for every non-empty candidate list whose raw scores are
nonnegative and not all zero (true of the classifier's probability vectors),
`_rerank_predictions` returns a list sorted in descending order of combined
score, renormalised so the top score equals 1, with every score in `[0, 1]`.
(As literally stated the claim fails for adversarial raw scores — see the
counterexample — and for all-zero scores the Python code raises
`ZeroDivisionError` rather than returning a renormalised list.) -/
theorem rerank_predictions_sorted_renormalized (dmap : String → Finset String)
    (user_symptoms : List String) (predictions : List (String × ℚ))
    (hne : predictions ≠ [])
    (hnn : ∀ p ∈ predictions, 0 ≤ p.2)
    (hpos : ∃ p ∈ predictions, 0 < p.2) :
    List.Pairwise (fun a b => b.2 ≤ a.2)
        (_rerank_predictions dmap user_symptoms predictions) ∧
    (_rerank_predictions dmap user_symptoms predictions).head?.map Prod.snd = some 1 ∧
    ∀ p ∈ _rerank_predictions dmap user_symptoms predictions, 0 ≤ p.2 ∧ p.2 ≤ 1 := by
  have hne' : predictions.map
      (fun p => (p.1, rerankCombined dmap user_symptoms.toFinset p)) ≠ [] := by
    intro hnil
    rw [List.map_eq_nil_iff] at hnil
    exact hne hnil
  have hnn' : ∀ x ∈ predictions.map
      (fun p => (p.1, rerankCombined dmap user_symptoms.toFinset p)), 0 ≤ x.2 := by
    intro x hx
    rw [List.mem_map] at hx
    obtain ⟨p, hp, rfl⟩ := hx
    exact (rerankCombined_bounds dmap user_symptoms.toFinset p (hnn p hp)).2
  have hpos' : ∃ x ∈ predictions.map
      (fun p => (p.1, rerankCombined dmap user_symptoms.toFinset p)), 0 < x.2 := by
    obtain ⟨p, hp, hq⟩ := hpos
    refine ⟨(p.1, rerankCombined dmap user_symptoms.toFinset p),
      List.mem_map_of_mem _ hp, ?_⟩
    have hb := (rerankCombined_bounds dmap user_symptoms.toFinset p (hnn p hp)).1
    simp only
    nlinarith
  exact sorted_renorm_aux _ hne' hnn' hpos'

/-- Witness for the amended C3 at a concrete candidate list. -/
theorem rerank_predictions_sorted_renormalized_witness :
    ([("flu", (1 : ℚ) / 2)] : List (String × ℚ)) ≠ [] ∧
    (∀ p ∈ ([("flu", (1 : ℚ) / 2)] : List (String × ℚ)), 0 ≤ p.2) ∧
    (∃ p ∈ ([("flu", (1 : ℚ) / 2)] : List (String × ℚ)), 0 < p.2) ∧
    (List.Pairwise (fun a b => b.2 ≤ a.2)
        (_rerank_predictions (fun _ => ∅) [] [("flu", 1 / 2)]) ∧
      (_rerank_predictions (fun _ => ∅) [] [("flu", 1 / 2)]).head?.map Prod.snd = some 1 ∧
      ∀ p ∈ _rerank_predictions (fun _ => ∅) [] [("flu", 1 / 2)], 0 ≤ p.2 ∧ p.2 ≤ 1) := by
  refine ⟨by simp, ?_, ?_, ?_⟩
  · intro p hp
    rw [List.mem_singleton] at hp
    rw [hp]
    norm_num
  · exact ⟨("flu", 1 / 2), List.mem_singleton.mpr rfl, by norm_num⟩
  · refine rerank_predictions_sorted_renormalized (fun _ => ∅) [] [("flu", 1 / 2)]
      (by simp) ?_ ?_
    · intro p hp
      rw [List.mem_singleton] at hp
      rw [hp]
      norm_num
    · exact ⟨("flu", 1 / 2), List.mem_singleton.mpr rfl, by norm_num⟩

/-- Counterexample to C6 as stated: when the same disease label occupies two
rows that both contain the symptom (the shipped Kaggle dataset has many rows
per disease), `calculate_symptom_weights` counts rows, not distinct diseases:
the stored IDF is `log(2/3) + 1 ≠ log(2/2) + 1 = 1`. -/
theorem idf_doc_freq_counterexample :
    Real.log (idf_arg [("flu", ["cough"]), ("flu", ["cough"])] "cough" : ℚ) + 1 ≠
      Real.log (claim_idf_arg [("flu", ["cough"]), ("flu", ["cough"])] "cough" : ℚ) + 1 := by
  have h1 : idf_arg [("flu", ["cough"]), ("flu", ["cough"])] "cough" = 2 / 3 := by
    have ht : totalDiseases [("flu", ["cough"]), ("flu", ["cough"])] = 1 := by decide
    have hd : symptom_doc_freq [("flu", ["cough"]), ("flu", ["cough"])] "cough" = 2 := by decide
    rw [idf_arg, ht, hd]
    norm_num
  have h2 : claim_idf_arg [("flu", ["cough"]), ("flu", ["cough"])] "cough" = 1 := by
    have ht : totalDiseases [("flu", ["cough"]), ("flu", ["cough"])] = 1 := by decide
    have hd : distinctDiseasesWith [("flu", ["cough"]), ("flu", ["cough"])] "cough" = 1 := by
      decide
    rw [claim_idf_arg, ht, hd]
    norm_num
  rw [h1, h2]
  intro h
  have hlog : Real.log ((2 : ℚ) / 3 : ℚ) = 0 := by
    have := add_right_cancel h
    rw [this]
    norm_num
  rw [Real.log_eq_zero] at hlog
  norm_num at hlog

/-- C6, amended: the stored IDF equals
`log((numDiseases+1)/(docFreq+1)) + 1` where `docFreq` counts **rows**
containing the symptom; this agrees with the claim's distinct-disease count
exactly when no disease label occurs in more than one row (and the
`AdvancedFeatureEngineer._calculate_symptom_idf` variant implements the
claim's distinct-disease formula directly, here `claim_idf_arg`). -/
theorem idf_fit_matches_claim_of_nodup (rows : List (String × List String)) (s : String)
    (h : (rows.map Prod.fst).Nodup) :
    Real.log (idf_arg rows s : ℚ) + 1 = Real.log (claim_idf_arg rows s : ℚ) + 1 := by
  have hfreq : symptom_doc_freq rows s = distinctDiseasesWith rows s := by
    have hnd : ((rows.filter (fun r => s ∈ r.2)).map Prod.fst).Nodup :=
      h.sublist ((List.filter_sublist rows).map Prod.fst)
    rw [distinctDiseasesWith, List.dedup_eq_self.mpr hnd, List.length_map]
    rfl
  rw [idf_arg, claim_idf_arg, hfreq]

/-- Witness for the amended C6: a table with one row per disease, where the
row count and the distinct-disease count coincide. -/
theorem idf_fit_matches_claim_of_nodup_witness :
    (([("flu", ["cough"]), ("cold", ["sneezing", "cough"])].map Prod.fst).Nodup) ∧
    Real.log (idf_arg [("flu", ["cough"]), ("cold", ["sneezing", "cough"])] "cough" : ℚ) + 1 =
      Real.log
        (claim_idf_arg [("flu", ["cough"]), ("cold", ["sneezing", "cough"])] "cough" : ℚ) + 1 :=
  ⟨by decide, idf_fit_matches_claim_of_nodup _ "cough" (by decide)⟩

/-- C7: the augmented training set is **not** invariant under a change of the
session string-hash: with the same disease map, engineer, symptom list and
sampler, two sessions whose `hash("flu")` differ by 1 select different symptom
subsets and produce different `X` arrays.  (Python's `hash` on strings is
salted per interpreter session via `PYTHONHASHSEED`, so the claimed
cross-session reproducibility fails; the stated intent — deterministic
seeding for reproducibility — would require a salt-free hash.) -/
theorem augment_training_data_hash_sensitive :
    augment_training_data (fun _ => 0) (fun seed n pool => (pool.rotate seed).take n)
        trivial_engineer ["cough", "fever", "nausea"] 1
        [("flu", ["cough", "fever", "nausea"])] ≠
      augment_training_data (fun _ => 1) (fun seed n pool => (pool.rotate seed).take n)
        trivial_engineer ["cough", "fever", "nausea"] 1
        [("flu", ["cough", "fever", "nausea"])] := by
  intro h
  have h2 := congrArg (fun pr => (pr.1[1]?).map List.head?) h
  simp only [augment_training_data, trivial_engineer, create_enhanced_features,
    get_combined_weight, List.foldl, List.range, List.range.loop, List.rotate, List.take,
    List.map, List.append_nil, List.nil_append, List.cons_append, List.length_cons,
    List.length_nil, List.contains_cons, List.contains_nil] at h2
  norm_num at h2
  rw [if_neg (by decide : ¬("cough" = "fever" ∨ "cough" = "nausea"))] at h2
  exact one_ne_zero h2

/-! ### Claims C8 and C5: lemmas about the extraction pipeline -/

theorem contains_mem {l : List String} {x : String} (h : l.contains x = true) : x ∈ l := by
  simpa [List.contains, List.elem_eq_mem] using h

theorem mem_contains {l : List String} {x : String} (h : x ∈ l) : l.contains x = true := by
  simpa [List.contains, List.elem_eq_mem] using h

theorem addSymptom_mem_self (s : String) (acc : List String) : s ∈ addSymptom s acc := by
  unfold addSymptom
  split_ifs with h
  · exact h
  · exact List.mem_append_right acc (List.mem_singleton.mpr rfl)

theorem addSymptom_mono {x : String} (s : String) {acc : List String} (h : x ∈ acc) :
    x ∈ addSymptom s acc := by
  unfold addSymptom
  split_ifs with hs
  · exact h
  · exact List.mem_append_left _ h

theorem addSymptom_forall {P : String → Prop} {acc : List String} (hacc : ∀ x ∈ acc, P x)
    {s : String} (hs : P s) : ∀ x ∈ addSymptom s acc, P x := by
  intro x hx
  unfold addSymptom at hx
  split_ifs at hx with h
  · exact hacc x hx
  · rcases List.mem_append.mp hx with hx | hx
    · exact hacc x hx
    · rw [List.mem_singleton.mp hx]
      exact hs

/-- A `foldl` preserves an invariant preserved by every step. -/
theorem foldl_inv {α β : Type} (f : α → β → α) (P : α → Prop)
    (hstep : ∀ acc b, P acc → P (f acc b)) :
    ∀ (l : List β) (acc : α), P acc → P (l.foldl f acc)
  | [], _, h => h
  | b :: l, acc, h => foldl_inv f P hstep l (f acc b) (hstep acc b h)

/-- If some element of the list establishes the (step-preserved) invariant
from any accumulator, the fold establishes it. -/
theorem foldl_eventually {α β : Type} (f : α → β → α) (P : α → Prop)
    (hstep : ∀ acc b, P acc → P (f acc b)) (b : β) (hb : ∀ acc, P (f acc b)) :
    ∀ (l : List β) (acc : α), b ∈ l → P (l.foldl f acc) := by
  intro l
  induction l with
  | nil => intro acc h; exact absurd h (List.not_mem_nil b)
  | cons a rest ih =>
      intro acc h
      rcases List.mem_cons.mp h with rfl | hr
      · exact foldl_inv f P hstep rest (f acc b) (hb acc)
      · exact ih (f acc a) hr

/-- Whatever `tokenOverlapStep` tracks as the best match comes from the
iterated vocabulary list. -/
theorem tokenOverlap_fold_mem (toks : List String) (θ : ℚ) (P : String → Prop) :
    ∀ (l : List String) (acc : Option String × ℚ), (∀ k ∈ l, P k) →
      (∀ m, acc.1 = some m → P m) →
      ∀ m, (l.foldl (tokenOverlapStep toks θ) acc).1 = some m → P m := by
  intro l
  induction l with
  | nil => intro acc _ hacc m hm; exact hacc m hm
  | cons a rest ih =>
      intro acc hl hacc m hm
      refine ih (tokenOverlapStep toks θ acc a) (fun k hk => hl k (List.mem_cons_of_mem a hk))
        ?_ m hm
      intro m' hm'
      simp only [tokenOverlapStep] at hm'
      split_ifs at hm' with h1 h2 h3
      · exact hacc m' hm'
      · simp only at hm'
        cases Option.some.inj hm'
        exact hl a (List.mem_cons_self a rest)
      · exact hacc m' hm'
      · exact hacc m' hm'

/-- Embedding of `_fuzzy_match` only ever resolves to a member of the vocabulary. -/
theorem _fuzzy_match_mem {known : List String} {sym : String} {θ : ℚ} {m : String}
    (h : _fuzzy_match known sym θ = some m) : m ∈ known := by
  simp only [_fuzzy_match] at h
  split_ifs at h with h1 h2 h3 h4
  · obtain rfl := Option.some.inj h
    exact contains_mem h3
  · split at h
    next k hk =>
      obtain rfl := Option.some.inj h
      exact List.mem_of_find?_eq_some hk
    next => exact absurd h (by simp)
  · split at h
    next k hk =>
      obtain rfl := Option.some.inj h
      exact List.mem_of_find?_eq_some hk
    next =>
      exact tokenOverlap_fold_mem _ θ (· ∈ known) known (none, 0)
        (fun k hk => hk) (fun m' hm' => by simp at hm') m h

theorem phraseSymbolStep_mono {x : String} (known : List String) (phrase : String)
    (acc : List String × List String) (symptom : String) (h : x ∈ acc.1) :
    x ∈ (phraseSymbolStep known phrase acc symptom).1 := by
  unfold phraseSymbolStep
  split_ifs with h1
  · exact addSymptom_mono _ h
  · cases hm : _fuzzy_match known symptom (0.8 : ℚ) with
    | some matched => exact addSymptom_mono _ h
    | none => exact h

theorem phraseSymbolStep_inv (known : List String) (phrase : String)
    (acc : List String × List String) (symptom : String)
    (hacc : ∀ x ∈ acc.1, x ∈ known) :
    ∀ x ∈ (phraseSymbolStep known phrase acc symptom).1, x ∈ known := by
  unfold phraseSymbolStep
  split_ifs with h1
  · exact addSymptom_forall hacc (contains_mem h1)
  · cases hm : _fuzzy_match known symptom (0.8 : ℚ) with
    | some matched => exact addSymptom_forall hacc (_fuzzy_match_mem hm)
    | none => exact hacc

theorem phraseSymbolStep_adds (known : List String) (phrase : String)
    (acc : List String × List String) (symptom : String)
    (hk : known.contains symptom = true) :
    symptom ∈ (phraseSymbolStep known phrase acc symptom).1 := by
  unfold phraseSymbolStep
  rw [if_pos hk]
  exact addSymptom_mem_self symptom acc.1

theorem phraseStep_mono {x : String} (known : List String) (ui : String)
    (acc : List String × List String) (entry : String × List String) (h : x ∈ acc.1) :
    x ∈ (phraseStep known ui acc entry).1 := by
  unfold phraseStep
  split_ifs with h1
  · exact foldl_inv (phraseSymbolStep known entry.1) (fun a => x ∈ a.1)
      (fun a s ha => phraseSymbolStep_mono known entry.1 a s ha) entry.2 acc h
  · exact h

theorem phraseStep_inv (known : List String) (ui : String)
    (acc : List String × List String) (entry : String × List String)
    (hacc : ∀ x ∈ acc.1, x ∈ known) :
    ∀ x ∈ (phraseStep known ui acc entry).1, x ∈ known := by
  unfold phraseStep
  split_ifs with h1
  · exact foldl_inv (phraseSymbolStep known entry.1) (fun a => ∀ x ∈ a.1, x ∈ known)
      (fun a s ha => phraseSymbolStep_inv known entry.1 a s ha) entry.2 acc hacc
  · exact hacc

theorem phraseStep_adds (known : List String) (ui : String)
    (acc : List String × List String) (entry : String × List String) (symptom : String)
    (hc : strContains ui entry.1 = true) (hsym : symptom ∈ entry.2)
    (hk : known.contains symptom = true) :
    symptom ∈ (phraseStep known ui acc entry).1 := by
  unfold phraseStep
  rw [if_pos hc]
  exact foldl_eventually (phraseSymbolStep known entry.1) (fun a => symptom ∈ a.1)
    (fun a s ha => phraseSymbolStep_mono known entry.1 a s ha) symptom
    (fun a => phraseSymbolStep_adds known entry.1 a symptom hk) entry.2 acc hsym

theorem singleSymbolStep_mono {x : String} (known : List String) (acc : List String)
    (symptom : String) (h : x ∈ acc) : x ∈ singleSymbolStep known acc symptom := by
  unfold singleSymbolStep
  split_ifs with h1
  · exact addSymptom_mono _ h
  · cases hm : _fuzzy_match known symptom (0.8 : ℚ) with
    | some matched => exact addSymptom_mono _ h
    | none => exact h

theorem singleSymbolStep_inv (known : List String) (acc : List String) (symptom : String)
    (hacc : ∀ x ∈ acc, x ∈ known) : ∀ x ∈ singleSymbolStep known acc symptom, x ∈ known := by
  unfold singleSymbolStep
  split_ifs with h1
  · exact addSymptom_forall hacc (contains_mem h1)
  · cases hm : _fuzzy_match known symptom (0.8 : ℚ) with
    | some matched => exact addSymptom_forall hacc (_fuzzy_match_mem hm)
    | none => exact hacc

theorem singleWordStep_mono {x : String} (known : List String) (extracted : List String)
    (word : String) (h : x ∈ extracted) : x ∈ singleWordStep known extracted word := by
  simp only [singleWordStep]
  split_ifs with h1
  · exact h
  · split
    next e hf =>
        exact foldl_inv (singleSymbolStep known) (fun a => x ∈ a)
          (fun a s ha => singleSymbolStep_mono known a s ha) e.2 extracted h
    next => exact h

theorem singleWordStep_inv (known : List String) (extracted : List String) (word : String)
    (hacc : ∀ x ∈ extracted, x ∈ known) : ∀ x ∈ singleWordStep known extracted word, x ∈ known := by
  simp only [singleWordStep]
  split_ifs with h1
  · exact hacc
  · split
    next e hf =>
        exact foldl_inv (singleSymbolStep known) (fun a => ∀ x ∈ a, x ∈ known)
          (fun a s ha => singleSymbolStep_inv known a s ha) e.2 extracted hacc
    next => exact hacc

theorem fallbackTokenStep_inv (known : List String) (lemmatize : String → String)
    (acc : List String) (token : String) (hacc : ∀ x ∈ acc, x ∈ known) :
    ∀ x ∈ fallbackTokenStep known lemmatize acc token, x ∈ known := by
  simp only [fallbackTokenStep]
  split_ifs with h1
  · exact hacc
  · split
    next matched hm => exact addSymptom_forall hacc (_fuzzy_match_mem hm)
    next => exact hacc

theorem fallbackStep_inv (known stop_words : List String) (tokenize : String → List String)
    (lemmatize : String → String) (ui : String) (extracted : List String)
    (hacc : ∀ x ∈ extracted, x ∈ known) :
    ∀ x ∈ fallbackStep known stop_words tokenize lemmatize ui extracted, x ∈ known := by
  simp only [fallbackStep]
  exact foldl_inv (fallbackTokenStep known lemmatize) (fun a => ∀ x ∈ a, x ∈ known)
    (fun a t ha => fallbackTokenStep_inv known lemmatize a t ha) _ extracted hacc

/-- C8: every symptom identifier in the first component of the pair returned by
`extract_symptoms` is a member of the `known_symptoms` vocabulary the extractor
was constructed with — phrase matches, single-word matches and fuzzy fallback
matches all resolve only to vocabulary members, for every input string and
every tokenizer/lemmatizer/stop-word behaviour of the NLTK collaborators. -/
theorem extract_symptoms_vocabulary (known stop_words : List String)
    (tokenize : String → List String) (lemmatize : String → String) (user_input : String) :
    ∀ s ∈ (extract_symptoms known stop_words tokenize lemmatize user_input).1, s ∈ known := by
  intro s hs
  simp only [extract_symptoms] at hs
  generalize _sanitize_input user_input = ui at hs
  split_ifs at hs with h1 h2 h3
  · exact absurd hs (List.not_mem_nil s)
  · exact absurd hs (List.not_mem_nil s)
  · exact fallbackStep_inv known stop_words tokenize lemmatize _ _
      (foldl_inv (singleWordStep known) (fun a => ∀ x ∈ a, x ∈ known)
        (fun a w ha => singleWordStep_inv known a w ha) _ _
        (foldl_inv (phraseStep known ui) (fun a => ∀ x ∈ a.1, x ∈ known)
          (fun a e ha => phraseStep_inv known ui a e ha) SYMPTOM_PHRASES ([], [])
          (fun x hx => absurd hx (List.not_mem_nil x)))) s hs
  · exact foldl_inv (singleWordStep known) (fun a => ∀ x ∈ a, x ∈ known)
      (fun a w ha => singleWordStep_inv known a w ha) _ _
      (foldl_inv (phraseStep known ui) (fun a => ∀ x ∈ a.1, x ∈ known)
        (fun a e ha => phraseStep_inv known ui a e ha) SYMPTOM_PHRASES ([], [])
        (fun x hx => absurd hx (List.not_mem_nil x))) s hs

/-- Witness for C8: on `"i have fever"` with vocabulary `["fever"]`, the
extractor returns `fever`, which the theorem places in the vocabulary. -/
theorem extract_symptoms_vocabulary_witness :
    "fever" ∈ (extract_symptoms ["fever"] [] (fun _ => []) id "i have fever").1 ∧
      "fever" ∈ (["fever"] : List String) :=
  ⟨by decide,
   extract_symptoms_vocabulary ["fever"] [] (fun _ => []) id "i have fever" "fever" (by decide)⟩

/-- C5: sick-indicator phrases take priority over the healthy short-circuit.
`"I am not feeling well"` is not short-circuited: it reaches phrase matching
and (whenever the mapped identifier `fatigue` is in the vocabulary) returns a
non-empty symptom list; `"I feel great, no symptoms"` returns `([], [])`. -/
theorem extract_healthy_sentinel_precedence :
    (∀ (known stop_words : List String) (tokenize : String → List String)
        (lemmatize : String → String), "fatigue" ∈ known →
      (extract_symptoms known stop_words tokenize lemmatize "I am not feeling well").1 ≠ []) ∧
    (∀ (known stop_words : List String) (tokenize : String → List String)
        (lemmatize : String → String),
      extract_symptoms known stop_words tokenize lemmatize "I feel great, no symptoms" =
        ([], [])) := by
  constructor
  · intro known stop_words tokenize lemmatize hf
    have hk : known.contains "fatigue" = true := mem_contains hf
    have hui : _sanitize_input "I am not feeling well" = "i am not feeling well" := by decide
    simp only [extract_symptoms, hui]
    rw [if_neg (by decide : ¬ (("i am not feeling well" : String).length < 3)),
      if_neg (by decide : ¬ (_check_is_user_healthy "i am not feeling well" = true))]
    have hacc : "fatigue" ∈ (SYMPTOM_PHRASES.foldl
        (phraseStep known "i am not feeling well") ([], [])).1 :=
      foldl_eventually (phraseStep known "i am not feeling well")
        (fun a => "fatigue" ∈ a.1)
        (fun a e ha => phraseStep_mono known "i am not feeling well" a e ha)
        ("not feeling well", ["malaise", "fatigue", "weakness"])
        (fun a => phraseStep_adds known "i am not feeling well" a
          ("not feeling well", ["malaise", "fatigue", "weakness"]) "fatigue"
          (by decide) (by decide) hk)
        SYMPTOM_PHRASES ([], []) (by decide)
    have hX : "fatigue" ∈ (pySplit "i am not feeling well").foldl
        (singleWordStep known)
        (SYMPTOM_PHRASES.foldl
          (phraseStep known "i am not feeling well") ([], [])).1 :=
      foldl_inv (singleWordStep known) (fun a => "fatigue" ∈ a)
        (fun a w ha => singleWordStep_mono known a w ha) _ _ hacc
    have hXne := List.ne_nil_of_mem hX
    rw [if_neg hXne]
    exact hXne
  · intro known stop_words tokenize lemmatize
    have hui : _sanitize_input "I feel great, no symptoms" = "i feel great, no symptoms" := by
      decide
    simp only [extract_symptoms, hui]
    rw [if_neg (by decide : ¬ (("i feel great, no symptoms" : String).length < 3)),
      if_pos (by decide : _check_is_user_healthy "i feel great, no symptoms" = true)]

/-- Witness for C5 at a concrete vocabulary containing `fatigue`. -/
theorem extract_healthy_sentinel_precedence_witness :
    "fatigue" ∈ (["fatigue"] : List String) ∧
    (extract_symptoms ["fatigue"] [] (fun _ => []) id "I am not feeling well").1 ≠ [] ∧
    extract_symptoms ["fatigue"] [] (fun _ => []) id "I feel great, no symptoms" = ([], []) :=
  ⟨by decide,
   extract_healthy_sentinel_precedence.1 ["fatigue"] [] (fun _ => []) id (by decide),
   extract_healthy_sentinel_precedence.2 ["fatigue"] [] (fun _ => []) id⟩
